import Mathlib

/-!
Shallow embedding of the `flex-cache-redis` adapters
(`src/RedisCache.ts` and `src/FlexRedisCache.ts`).

Each adapter method performs at most one round trip to the redis store, so a
method is embedded as a pure function from its arguments and the store's
response (a resolved reply or a rejection) to a pair: the list of store calls
the method issues, and the outcome of the returned promise (`Except`).

External collaborators are parameters, as in the source, where the redis
handle is injected through the constructor: `JSON.stringify` is a parameter
`stringify : α → String`, `JSON.parse` a parameter
`jsonParse : String → Except δ α`, transport failures an opaque error type
`ε`.
-/

/-- The `ttl` argument of `set`: a finite number of milliseconds, or
`Infinity`. (Integer-valued finite ttls; float precision is outside the
model.) -/
inductive TTL where
  | finite (ms : Int)
  | infinity
deriving DecidableEq

/-- The JavaScript test `ttl <= 0` (false for `Infinity`). -/
def TTL.nonpos : TTL → Bool
  | .finite ms => decide (ms ≤ 0)
  | .infinity => false

/-- The class of a JavaScript error object: `new Error(...)` vs
`new TypeError(...)`. -/
inductive JsErrorClass where
  | error
  | typeError
deriving DecidableEq

/-- How a cache promise can reject: a validation error the adapter raises
itself, a decoder error propagated from `JSON.parse` (`δ`), or a store-layer
rejection propagated from the redis client (`ε`). -/
inductive CacheError (ε δ : Type) where
  | validation (cls : JsErrorClass) (msg : String)
  | decode (e : δ)
  | store (e : ε)
deriving DecidableEq

/-- Option arguments of the ioredis `set` command (`"PX" ms`, `"NX"`,
`"XX"`), as the repository's test expectations spell them. The source under
`src/` never passes any of them. -/
inductive SetOpt where
  | px (ms : Int)
  | nx
  | xx
deriving DecidableEq

/-- One invocation of the injected redis handle: which method was called and
with which arguments. `set` carries the trailing option list ioredis
accepts. -/
inductive StoreCall where
  | get (key : String)
  | del (key : String)
  | set (key : String) (payload : String) (opts : List SetOpt)
  | setex (key : String) (seconds : Int) (payload : String)
deriving DecidableEq

/-- What `redis.get` can resolve with: a string, `null`, or another
non-string shape (`typeof data !== 'string'`). -/
inductive RedisReply where
  | str (s : String)
  | nil
  | num (n : Int)
  | list
  | map
deriving DecidableEq

/-- The `typeof data === 'string'` test of the source. -/
def RedisReply.isString : RedisReply → Bool
  | .str _ => true
  | _ => false

/-- Math.ceil(ttl / 1000) for an integer ttl, as computed in both `set`
methods (`const ttlSec = Math.ceil(ttl / 1000)`). Lean's `Int` division is
Euclidean (floor for the positive divisor 1000), so the ceiling is
`-((-ttl) / 1000)`. -/
def ceilDiv1000 (ttl : Int) : Int := -((-ttl) / 1000)

namespace RedisCache

/-- `RedisCache.get` (src/RedisCache.ts:19-27): one `redis.get(name)` call;
a rejected fetch propagates; a non-string reply resolves `null`; a string
reply is fed to `JSON.parse`, whose error propagates. -/
def get {ε δ α : Type} (jsonParse : String → Except δ α) (name : String)
    (fetched : Except ε RedisReply) :
    List StoreCall × Except (CacheError ε δ) (Option α) :=
  ([StoreCall.get name],
    match fetched with
    | .error e => .error (.store e)
    | .ok data =>
      match data with
      | .str s =>
        (match jsonParse s with
         | .ok v => .ok (some v)
         | .error e => .error (.decode e))
      | _ => .ok none)

/-- `RedisCache.delete` (src/RedisCache.ts:15-17): one `redis.del(name)`
call, result discarded (`.then(() => undefined)`), rejection propagated. -/
def delete {ε : Type} (name : String) (deleted : Except ε Int) :
    List StoreCall × Except ε Unit :=
  ([StoreCall.del name], deleted.map fun _ => ())

/-- `RedisCache.set` (src/RedisCache.ts:29-42): reject `undefined` data with
`new Error('Data is not defined')`; stringify; `ttl === Infinity` issues
`redis.set(name, payload)` with no options; otherwise
`redis.setex(name, Math.ceil(ttl / 1000), payload)`. The store's resolved
status is discarded. -/
def set {ε δ α : Type} (stringify : α → String) (name : String)
    (data : Option α) (ttl : TTL) (stored : Except ε (Option String)) :
    List StoreCall × Except (CacheError ε δ) Unit :=
  match data with
  | none => ([], .error (.validation .error "Data is not defined"))
  | some d =>
    let payload := stringify d
    match ttl with
    | .infinity =>
      ([StoreCall.set name payload []],
        match stored with
        | .error e => .error (.store e)
        | .ok _ => .ok ())
    | .finite ms =>
      ([StoreCall.setex name (ceilDiv1000 ms) payload],
        match stored with
        | .error e => .error (.store e)
        | .ok _ => .ok ())

end RedisCache

namespace FlexRedisCache

/-- `FlexRedisCache.get` (src/FlexRedisCache.ts:19-27); textually identical
to `RedisCache.get`. -/
def get {ε δ α : Type} (jsonParse : String → Except δ α) (name : String)
    (fetched : Except ε RedisReply) :
    List StoreCall × Except (CacheError ε δ) (Option α) :=
  ([StoreCall.get name],
    match fetched with
    | .error e => .error (.store e)
    | .ok data =>
      match data with
      | .str s =>
        (match jsonParse s with
         | .ok v => .ok (some v)
         | .error e => .error (.decode e))
      | _ => .ok none)

/-- `FlexRedisCache.delete` (src/FlexRedisCache.ts:15-17); textually
identical to `RedisCache.delete`. -/
def delete {ε : Type} (name : String) (deleted : Except ε Int) :
    List StoreCall × Except ε Unit :=
  ([StoreCall.del name], deleted.map fun _ => ())

/-- `FlexRedisCache.set` (src/FlexRedisCache.ts:29-46): first reject
`ttl <= 0` with `new Error('TTL must be positive number')`, then reject
`undefined` data with `new TypeError('Data is not defined')`; the rest is
the same as `RedisCache.set`: `redis.set(name, payload)` with no options for
`Infinity`, else `redis.setex(name, Math.ceil(ttl / 1000), payload)`; the
resolved status is discarded. -/
def set {ε δ α : Type} (stringify : α → String) (name : String)
    (data : Option α) (ttl : TTL) (stored : Except ε (Option String)) :
    List StoreCall × Except (CacheError ε δ) Unit :=
  if ttl.nonpos then
    ([], .error (.validation .error "TTL must be positive number"))
  else
    match data with
    | none => ([], .error (.validation .typeError "Data is not defined"))
    | some d =>
      let payload := stringify d
      match ttl with
      | .infinity =>
        ([StoreCall.set name payload []],
          match stored with
          | .error e => .error (.store e)
          | .ok _ => .ok ())
      | .finite ms =>
        ([StoreCall.setex name (ceilDiv1000 ms) payload],
          match stored with
          | .error e => .error (.store e)
          | .ok _ => .ok ())

end FlexRedisCache

/-- Does a cache promise outcome reject with a validation error (of either
JavaScript error class)? -/
def isValidationFailure {ε δ β : Type} : Except (CacheError ε δ) β → Bool
  | .error (.validation _ _) => true
  | _ => false

/-- Does a store call carry no conditional-write flag (`NX` / `XX`)? A
`set` call qualifies only when its option list is empty. -/
def StoreCall.unconditional : StoreCall → Bool
  | .set _ _ opts => opts.isEmpty
  | _ => true

/-- A concrete stand-in for `JSON.parse` used in witnesses: rejects the
empty string (as `JSON.parse('')` throws), accepts anything else. -/
def sampleDecoder : String → Except String String :=
  fun s => if s = "" then Except.error "Unexpected end of JSON input" else Except.ok s

deriving instance DecidableEq for Except

/-- Helper: `Math.ceil(ttl / 1000)` as embedded equals the rational ceiling
of `ttl / 1000`. -/
lemma ceilDiv1000_eq_ceil (ms : Int) : ceilDiv1000 ms = ⌈(ms : ℚ) / 1000⌉ := by
  have h : 1000 * ((-ms) / 1000) ≤ -ms ∧ -ms < 1000 * ((-ms) / 1000 + 1) := by omega
  rw [eq_comm, Int.ceil_eq_iff]
  unfold ceilDiv1000
  have h1 : ((1000 : ℚ)) * (((-ms) / 1000 : Int) : ℚ) ≤ (-ms : ℚ) := by exact_mod_cast h.1
  have h2 : ((-ms : Int) : ℚ) < 1000 * ((((-ms) / 1000 : Int) : ℚ) + 1) := by exact_mod_cast h.2
  constructor
  · rw [lt_div_iff₀ (by norm_num : (0:ℚ) < 1000)]
    push_cast at h2 ⊢
    linarith
  · rw [div_le_iff₀ (by norm_num : (0:ℚ) < 1000)]
    push_cast at h1 ⊢
    linarith

/-- C1: the claim says `FlexRedisCache.set(k, v, 5000)` issues a single
store-with-options call with expiry `PX 5000` milliseconds and the `NX`
flag. The code under src/ instead issues `setex('a', 5, '123')` — the
seconds-granular call with the ceiling-converted ttl and no flag — so this
theorem records what the code actually does at the claimed example input,
and that it is not the claimed call. (The repository's own test file
expects `set.calledWith('a', '123', 'PX', 5000, 'NX')`.) -/
theorem flexSet_5000ms_issues_setex_not_px_nx :
    (@FlexRedisCache.set Unit Unit Int toString "a" (some 123) (TTL.finite 5000)
        (Except.ok (some "OK"))).1 = [StoreCall.setex "a" 5 "123"]
    ∧ [StoreCall.setex "a" 5 "123"] ≠ [StoreCall.set "a" "123" [SetOpt.px 5000, SetOpt.nx]] := by
  decide

/-- C2: the claim requires `update` (only-if-present) and `setForce`
(unconditional) alongside an only-if-absent `set`. The class under src/
defines neither method, and its `set` never passes any conditional-write
flag: every store call it issues is unconditional, for all inputs. -/
theorem flexSet_never_passes_conditional_flags {ε δ α : Type}
    (stringify : α → String) (name : String) (data : Option α) (ttl : TTL)
    (stored : Except ε (Option String)) :
    ((@FlexRedisCache.set ε δ α stringify name data ttl stored).1.all
      StoreCall.unconditional) = true := by
  unfold FlexRedisCache.set
  split
  · simp
  · cases data with
    | none => simp
    | some d => cases ttl <;> simp [StoreCall.unconditional]

/-- C3: the claim says a non-"OK" store status makes the flex adapter's
writes fail with `WriteRejectedError`. The code under src/ discards the
resolved status entirely: with the store resolving `'ERR'`, `set` resolves
successfully on both adapters (the simple-adapter half of the claim is what
the code does everywhere). -/
theorem flexSet_resolves_ok_on_err_status :
    (@FlexRedisCache.set Unit Unit Int toString "a" (some 123) TTL.infinity
        (Except.ok (some "ERR"))).2 = Except.ok ()
    ∧ (@RedisCache.set Unit Unit Int toString "a" (some 123) TTL.infinity
        (Except.ok (some "ERR"))).2 = Except.ok () := by
  decide

/-- C4: `FlexRedisCache.set` with `ttl <= 0` rejects with the TTL
validation error and issues no store call; with `ttl === Infinity` and
defined data it issues exactly one `redis.set(name, payload)` call carrying
no expiry argument. -/
theorem flexSet_ttl_guard_and_infinite_no_expiry {ε δ α : Type}
    (stringify : α → String) (name : String) (data : Option α) (ttl : TTL)
    (stored : Except ε (Option String)) :
    (ttl.nonpos = true →
      @FlexRedisCache.set ε δ α stringify name data ttl stored =
        ([], Except.error (CacheError.validation JsErrorClass.error
          "TTL must be positive number")))
    ∧ (∀ v, data = some v → ttl = TTL.infinity →
      (@FlexRedisCache.set ε δ α stringify name data ttl stored).1 =
        [StoreCall.set name (stringify v) []]) := by
  constructor
  · intro h
    simp [FlexRedisCache.set, h]
  · rintro v rfl rfl
    simp [FlexRedisCache.set, TTL.nonpos]

/-- Witness for C4 at `ttl = 0` and `ttl = Infinity`. -/
theorem flexSet_ttl_guard_and_infinite_no_expiry_witness :
    @FlexRedisCache.set Unit Unit Int toString "k" (some 7) (TTL.finite 0)
        (Except.ok (some "OK")) =
      ([], Except.error (CacheError.validation JsErrorClass.error
        "TTL must be positive number"))
    ∧ (@FlexRedisCache.set Unit Unit Int toString "k" (some 7) TTL.infinity
        (Except.ok (some "OK"))).1 = [StoreCall.set "k" "7" []] :=
  ⟨(flexSet_ttl_guard_and_infinite_no_expiry toString "k" (some 7) (TTL.finite 0)
      (Except.ok (some "OK"))).1 (by decide),
   ((flexSet_ttl_guard_and_infinite_no_expiry toString "k" (some 7) TTL.infinity
      (Except.ok (some "OK"))).2 7 rfl rfl).trans (by decide)⟩

/-- C5: `set` with undefined data rejects with a validation error on both
adapters and issues no store call, for every key and every ttl (on the flex
adapter a non-positive ttl is caught first, still a validation error). -/
theorem set_undefined_data_validation {ε δ α : Type} (stringify : α → String)
    (name : String) (ttl : TTL) (stored : Except ε (Option String)) :
    @RedisCache.set ε δ α stringify name none ttl stored =
      ([], Except.error (CacheError.validation JsErrorClass.error "Data is not defined"))
    ∧ (@FlexRedisCache.set ε δ α stringify name none ttl stored).1 = []
    ∧ isValidationFailure
        (@FlexRedisCache.set ε δ α stringify name none ttl stored).2 = true := by
  refine ⟨rfl, ?_, ?_⟩ <;>
    cases h : ttl.nonpos <;> simp [FlexRedisCache.set, h, isValidationFailure]

/-- C6: a fetch that resolves with any non-string reply (null, undefined is
not modelled separately from null, a number, a list, a map) makes `get`
resolve with `null` on both adapters, never an error. -/
theorem get_nonstring_resolves_null {ε δ α : Type}
    (jsonParse : String → Except δ α) (name : String) (r : RedisReply)
    (h : r.isString = false) :
    @RedisCache.get ε δ α jsonParse name (Except.ok r) =
      ([StoreCall.get name], Except.ok none)
    ∧ @FlexRedisCache.get ε δ α jsonParse name (Except.ok r) =
      ([StoreCall.get name], Except.ok none) := by
  cases r <;> simp_all [RedisCache.get, FlexRedisCache.get, RedisReply.isString]

/-- Witness for C6 at the null reply. -/
theorem get_nonstring_resolves_null_witness :
    RedisReply.isString RedisReply.nil = false
    ∧ @RedisCache.get Unit String String sampleDecoder "k" (Except.ok RedisReply.nil) =
        ([StoreCall.get "k"], Except.ok none)
    ∧ @FlexRedisCache.get Unit String String sampleDecoder "k" (Except.ok RedisReply.nil) =
        ([StoreCall.get "k"], Except.ok none) :=
  ⟨rfl, (get_nonstring_resolves_null sampleDecoder "k" RedisReply.nil rfl).1,
    (get_nonstring_resolves_null sampleDecoder "k" RedisReply.nil rfl).2⟩

/-- C7: a fetch that resolves with a string the decoder rejects makes `get`
fail with the decode error, the decoder's error value carried through
unchanged, on both adapters. -/
theorem get_decode_error_propagates {ε δ α : Type}
    (jsonParse : String → Except δ α) (name s : String) (e : δ)
    (h : jsonParse s = Except.error e) :
    @RedisCache.get ε δ α jsonParse name (Except.ok (RedisReply.str s)) =
      ([StoreCall.get name], Except.error (CacheError.decode e))
    ∧ @FlexRedisCache.get ε δ α jsonParse name (Except.ok (RedisReply.str s)) =
      ([StoreCall.get name], Except.error (CacheError.decode e)) := by
  simp [RedisCache.get, FlexRedisCache.get, h]

/-- Witness for C7 at the empty string, on which the sample decoder fails
as `JSON.parse('')` does. -/
theorem get_decode_error_propagates_witness :
    sampleDecoder "" = Except.error "Unexpected end of JSON input"
    ∧ @RedisCache.get Unit String String sampleDecoder "k" (Except.ok (RedisReply.str "")) =
        ([StoreCall.get "k"], Except.error (CacheError.decode "Unexpected end of JSON input"))
    ∧ @FlexRedisCache.get Unit String String sampleDecoder "k" (Except.ok (RedisReply.str "")) =
        ([StoreCall.get "k"], Except.error (CacheError.decode "Unexpected end of JSON input")) :=
  ⟨by decide,
   (get_decode_error_propagates sampleDecoder "k" "" "Unexpected end of JSON input" (by decide)).1,
   (get_decode_error_propagates sampleDecoder "k" "" "Unexpected end of JSON input" (by decide)).2⟩

/-- C8: the simple adapter's `set` with a finite ttl issues exactly the
`setex` call whose seconds argument is the milliseconds ttl converted by
ceiling — it equals the rational ceiling of `ms / 1000` — and at the
claim's examples 5000 ↦ 5, 4999 ↦ 5, 5001 ↦ 6. -/
theorem redisSet_finite_ttl_setex_ceiling {ε δ α : Type}
    (stringify : α → String) (name : String) (v : α) (ms : Int)
    (stored : Except ε (Option String)) :
    (@RedisCache.set ε δ α stringify name (some v) (TTL.finite ms) stored).1 =
      [StoreCall.setex name (ceilDiv1000 ms) (stringify v)]
    ∧ ceilDiv1000 ms = ⌈(ms : ℚ) / 1000⌉
    ∧ ceilDiv1000 5000 = 5 ∧ ceilDiv1000 4999 = 5 ∧ ceilDiv1000 5001 = 6 :=
  ⟨rfl, ceilDiv1000_eq_ceil ms, by decide, by decide, by decide⟩

/-- C9: `delete` on either adapter issues exactly one `del` call; a
resolved store call (whatever it returns) yields a resolution with no
value, and a rejected store call rejects with the very error value the
store raised. -/
theorem delete_single_del_call_and_propagation {ε : Type} (name : String)
    (deleted : Except ε Int) :
    (@RedisCache.delete ε name deleted).1 = [StoreCall.del name]
    ∧ (@FlexRedisCache.delete ε name deleted).1 = [StoreCall.del name]
    ∧ (∀ r, deleted = Except.ok r →
        (@RedisCache.delete ε name deleted).2 = Except.ok ()
        ∧ (@FlexRedisCache.delete ε name deleted).2 = Except.ok ())
    ∧ (∀ e, deleted = Except.error e →
        (@RedisCache.delete ε name deleted).2 = Except.error e
        ∧ (@FlexRedisCache.delete ε name deleted).2 = Except.error e) := by
  refine ⟨rfl, rfl, ?_, ?_⟩ <;> rintro x rfl <;> exact ⟨rfl, rfl⟩

/-- Witness for C9 on a resolving and a rejecting delete. -/
theorem delete_single_del_call_and_propagation_witness :
    (RedisCache.delete "k" (Except.ok 1 : Except String Int)).2 = Except.ok ()
    ∧ (FlexRedisCache.delete "k" (Except.error "boom" : Except String Int)).2 =
        Except.error "boom" :=
  ⟨((delete_single_del_call_and_propagation "k" (Except.ok 1)).2.2.1 1 rfl).1,
   ((delete_single_del_call_and_propagation "k" (Except.error "boom")).2.2.2 "boom" rfl).2⟩

/-- C10 counterexample: the two `set` variants do not differ only in the
flex adapter's `ttl <= 0` guard — at `ttl = 5000` (which passes the guard)
and undefined data, the simple adapter rejects with `new Error(...)` while
the flex adapter rejects with `new TypeError(...)`. -/
theorem simple_flex_set_differ_beyond_ttl_guard :
    TTL.nonpos (TTL.finite 5000) = false
    ∧ @RedisCache.set Unit Unit Int toString "a" none (TTL.finite 5000)
        (Except.ok (some "OK")) ≠
      @FlexRedisCache.set Unit Unit Int toString "a" none (TTL.finite 5000)
        (Except.ok (some "OK")) := by
  decide

/-- C10 amended: for defined data and a ttl that is positive or infinite,
the two `set` variants issue the same single store call with the same
arguments (plain `redis.set(name, payload)` for Infinity, `setex` with the
ceiling-converted seconds otherwise) and produce the same outcome; besides
the `ttl <= 0` guard the variants differ only in the error class used to
reject undefined data. -/
theorem simple_flex_set_equiv_on_defined_valid {ε δ α : Type}
    (stringify : α → String) (name : String) (v : α) (ttl : TTL)
    (stored : Except ε (Option String)) (h : ttl.nonpos = false) :
    @RedisCache.set ε δ α stringify name (some v) ttl stored =
      @FlexRedisCache.set ε δ α stringify name (some v) ttl stored
    ∧ (ttl = TTL.infinity →
        (@RedisCache.set ε δ α stringify name (some v) ttl stored).1 =
          [StoreCall.set name (stringify v) []])
    ∧ (∀ ms, ttl = TTL.finite ms →
        (@RedisCache.set ε δ α stringify name (some v) ttl stored).1 =
          [StoreCall.setex name (ceilDiv1000 ms) (stringify v)]) := by
  refine ⟨?_, ?_, ?_⟩
  · simp [RedisCache.set, FlexRedisCache.set, h]
  · rintro rfl
    rfl
  · rintro ms rfl
    rfl

/-- Witness for C10's amended statement at a finite positive ttl. -/
theorem simple_flex_set_equiv_on_defined_valid_witness :
    @RedisCache.set Unit Unit Int toString "a" (some 123) (TTL.finite 5000)
        (Except.ok (some "OK")) =
      @FlexRedisCache.set Unit Unit Int toString "a" (some 123) (TTL.finite 5000)
        (Except.ok (some "OK"))
    ∧ (@RedisCache.set Unit Unit Int toString "a" (some 123) (TTL.finite 5000)
        (Except.ok (some "OK"))).1 = [StoreCall.setex "a" 5 "123"] :=
  ⟨(simple_flex_set_equiv_on_defined_valid toString "a" 123 (TTL.finite 5000)
      (Except.ok (some "OK")) (by decide)).1,
   ((simple_flex_set_equiv_on_defined_valid toString "a" 123 (TTL.finite 5000)
      (Except.ok (some "OK")) (by decide)).2.2 5000 rfl).trans (by decide)⟩
